import Mathlib

/-!
# Shallow embedding of the voice-assistant audio orchestration

This file embeds, in Lean, the session/audio state machine of the
repository: the microphone capture side (`src/services/audioInput.js`),
the speaker playback side (`AudioOutput`, `src/unnamed/part_002`), the
coordinating handler (`src/services/audioHandler.js`) and the transport
message dispatch (`src/chat.js`).  The JavaScript program is
single-threaded and event-driven; each event handler runs to completion,
so every handler is modelled as a pure function on an explicit state
record, and the system is the transition system generated by firing
handlers in any order.  Device acquisition may fail, which is modelled
by a Boolean success parameter on the operations that open a device.
Byte buffers are modelled as `List Nat`, wall-clock times as `Nat`
milliseconds, and detector confidence scores as exact decimals (an
integer part, fraction digits and their count), whose rational value is
used in the statements.
-/

namespace Forpila

/-- One merged record for the mutable fields of `ConsoleChat`,
`AudioHandler`, `AudioInput` and `AudioOutput` that the audio/session
logic reads or writes.  Field names follow the JavaScript fields. -/
structure SysState where
  /-- `AudioInput.recording`: a capture session is active (`recording !== null`). -/
  recording : Bool
  /-- `AudioInput.audioBuffer`: the capture accumulation buffer (bytes). -/
  audioBuffer : List Nat
  /-- `AudioInput.pendingStopRecording`. -/
  pendingStopRecording : Bool
  /-- `AudioInput.speechDetected`. -/
  speechDetected : Bool
  /-- `AudioInput.isListeningForWakeWord`. -/
  isListeningForWakeWord : Bool
  /-- `AudioInput.lastDetectionTime` (ms since epoch). -/
  lastDetectionTime : Nat
  /-- `AudioOutput.isPlaying`: the playback session is actively consuming. -/
  isPlaying : Bool
  /-- `AudioOutput.audioQueue`: the playback queue of byte chunks. -/
  audioQueue : List (List Nat)
  /-- `AudioOutput.speakerInitialized` / `speaker !== null`. -/
  speakerInit : Bool
  /-- `AudioOutput.isCleaningUp`. -/
  isCleaningUp : Bool
  /-- `AudioOutput.preBuffering`. -/
  preBuffering : Bool
  /-- `AudioHandler.continuousMode`. -/
  continuousMode : Bool
  /-- `ConsoleChat.ws !== null && ws.readyState === 1`. -/
  wsOpen : Bool
  /-- `ConsoleChat.isWaitingForResponse`. -/
  isWaitingForResponse : Bool
  /-- `ConsoleChat.responseId`. -/
  responseId : Option Nat
  /-- `ConsoleChat.currentFunctionArgs`. -/
  currentFunctionArgs : String
  /-- `audioHandler.isProcessingAudio` (set by `speech_started`). -/
  isProcessingAudio : Bool
  deriving Repr, DecidableEq

/-- Initial state: the constructors of `ConsoleChat`, `AudioHandler`,
`AudioInput`, `AudioOutput`, after the WebSocket opened. -/
def initState : SysState where
  recording := false
  audioBuffer := []
  pendingStopRecording := false
  speechDetected := false
  isListeningForWakeWord := false
  lastDetectionTime := 0
  isPlaying := false
  audioQueue := []
  speakerInit := false
  isCleaningUp := false
  preBuffering := true
  continuousMode := false
  wsOpen := true
  isWaitingForResponse := false
  responseId := none
  currentFunctionArgs := ""
  isProcessingAudio := false

/-- Messages sent on the WebSocket by the audio/session logic. -/
inductive Msg where
  /-- `input_audio_buffer.append` with the given audio bytes. -/
  | appendAudio (bytes : List Nat)
  /-- `input_audio_buffer.commit`. -/
  | commit
  /-- `response.cancel`. -/
  | cancel
  deriving Repr, DecidableEq

/-- Capture flush threshold: `audioSettings.sampleRate` = 16000 bytes
(`src/services/audioInput.js`, line 154). -/
def flushThreshold : Nat := 16000

/-- `AudioInput.startRecording` (`src/services/audioInput.js` 124-177).
`ok` tells whether `recorder.record` succeeded (the `try` branch) or
threw (the `catch` branch). -/
def startRecording (ok : Bool) (s : SysState) : SysState :=
  if s.isPlaying || s.isWaitingForResponse then s
  else if s.recording then s
  else
    let s1 := { s with isListeningForWakeWord := false, speechDetected := false,
                       pendingStopRecording := false }
    if ok then { s1 with recording := true, audioBuffer := [] }
    else { s1 with recording := false, audioBuffer := [] }

/-- `AudioInput.stopRecording` (`src/services/audioInput.js` 182-194). -/
def stopRecording (s : SysState) : SysState :=
  if !s.recording then s
  else
    let s1 := { s with pendingStopRecording := true, recording := false }
    if !s1.continuousMode then { s1 with isListeningForWakeWord := true } else s1

/-- `AudioInput.finishRecording` (`src/services/audioInput.js` 199-224):
sends the partial buffer plus a commit only when the socket is open and
the buffer is non-empty, then releases the device and resets the flags. -/
def finishRecording (s : SysState) : SysState × List Msg :=
  if !s.recording then (s, [])
  else
    let msgs := if s.wsOpen && !s.audioBuffer.isEmpty then
                  [Msg.appendAudio s.audioBuffer, Msg.commit]
                else []
    ({ s with recording := false, audioBuffer := [], pendingStopRecording := false,
              speechDetected := false }, msgs)

/-- The capture-stream `data` callback (`src/services/audioInput.js`
151-162): accumulate the chunk and flush the whole buffer once it
reaches the threshold; a closed socket drops the chunk entirely. -/
def onAudioChunk (s : SysState) (chunk : List Nat) : SysState × List Msg :=
  if s.wsOpen then
    let buf := s.audioBuffer ++ chunk
    if flushThreshold ≤ buf.length then
      ({ s with audioBuffer := [] }, [Msg.appendAudio buf])
    else
      ({ s with audioBuffer := buf }, [])
  else (s, [])

/-- `AudioInput.handleWakeWord` (`src/services/audioInput.js` 113-119):
start recording only if no capture, no playback and no pending response. -/
def handleWakeWord (ok : Bool) (s : SysState) : SysState :=
  if !s.recording && !s.isPlaying && !s.isWaitingForResponse then
    startRecording ok s
  else s

/-! ## Wake-word detector output parsing (`src/services/audioInput.js` 51-70)

The stdout handler checks `output.includes('DETECTED!')`, extracts the
confidence with the regular expression `/Score: (\d+\.\d+)/` and
`parseFloat`, and treats a missed match as score 0.  Scores are modelled
as exact decimals (the values the detector prints); the comparisons the
code performs on them are exact at these magnitudes, so the float
rounding of `parseFloat` is immaterial. -/

/-- JavaScript regex `\d`: an ASCII decimal digit. -/
def isDig (c : Char) : Bool := '0' ≤ c && c ≤ '9'

/-- Value of a run of decimal digit characters. -/
def natOfDigits (l : List Char) : Nat :=
  l.foldl (fun a c => 10 * a + (c.toNat - 48)) 0

/-- A parsed decimal `ip.fr` with `k` fractional digits: the exact
value of the matched `\d+\.\d+` text, namely `ip + fr / 10^k`. -/
structure Dec where
  ip : Nat
  fr : Nat
  k : Nat
  deriving Repr, DecidableEq

/-- The rational value of a parsed decimal. -/
def Dec.toRat (d : Dec) : ℚ :=
  (d.ip : ℚ) + (d.fr : ℚ) / (10 : ℚ) ^ d.k

/-- The threshold test `score > 0.5` of the detector handler, carried
out exactly on the parsed decimal (cross-multiplied form, proved below
to coincide with `1/2 < toRat`). -/
def Dec.gtHalf (d : Dec) : Bool :=
  decide (10 ^ d.k < 2 * (d.ip * 10 ^ d.k + d.fr))

/-- Try to match `Score: (\d+\.\d+)` at the head of the character list,
returning the captured decimal. -/
def scoreAt (l : List Char) : Option Dec :=
  if "Score: ".data.isPrefixOf l then
    let rest := l.drop 7
    let d1 := rest.takeWhile isDig
    let r1 := rest.dropWhile isDig
    if d1.isEmpty then none
    else
      match r1 with
      | '.' :: r2 =>
        let d2 := r2.takeWhile isDig
        if d2.isEmpty then none
        else some ⟨natOfDigits d1, natOfDigits d2, d2.length⟩
      | _ => none
  else none

/-- Leftmost match of `Score: (\d+\.\d+)` in the line (the semantics of
`output.match(/Score: (\d+\.\d+)/)`). -/
def findScore : List Char → Option Dec
  | [] => none
  | c :: cs =>
    match scoreAt (c :: cs) with
    | some q => some q
    | none => findScore cs

/-- `score > 0.5` on the regex result, with a missed match counting as
score 0 (`const score = scoreMatch ? parseFloat(scoreMatch[1]) : 0`). -/
def scoreExceeds : Option Dec → Bool
  | some d => d.gtHalf
  | none => false

/-- The rational confidence value of the regex result (0 on a miss). -/
def decOptToRat : Option Dec → ℚ
  | some d => d.toRat
  | none => 0

/-- Substring occurrence: does `pat` occur contiguously in `l`? -/
def containsSub (pat : List Char) : List Char → Bool
  | [] => pat.isPrefixOf []
  | c :: cs => pat.isPrefixOf (c :: cs) || containsSub pat cs

/-- `output.includes('DETECTED!')`. -/
def hasMarker (line : String) : Bool :=
  containsSub "DETECTED!".data line.data

/-- The confidence the handler compares against the threshold. -/
def scoreOf (line : String) : ℚ :=
  decOptToRat (findScore line.data)

/-- Detection cooldown: `this.detectionCooldown = 2000` ms. -/
def detectionCooldown : Nat := 2000

/-- The detector stdout `data` handler (`src/services/audioInput.js`
51-70) for one (trimmed) output line at wall-clock time `now`.  Returns
the new state and whether a wake event was emitted (`handleWakeWord`
invoked).  The emission updates `lastDetectionTime` before handling. -/
def wakeLineStep (ok : Bool) (line : String) (now : Nat) (s : SysState) :
    SysState × Bool :=
  if hasMarker line then
    if scoreExceeds (findScore line.data) then
      if detectionCooldown < now - s.lastDetectionTime then
        (handleWakeWord ok { s with lastDetectionTime := now }, true)
      else (s, false)
    else (s, false)
  else (s, false)

/-! ## Playback (`AudioOutput`, `src/unnamed/part_002`) -/

/-- `this.minBufferSize = 1024 * 128`. -/
def minBufferSize : Nat := 1024 * 128

/-- `this.chunkSize = 1024 * 64`. -/
def chunkSize : Nat := 1024 * 64

/-- `this.dynamicBufferThreshold = 1024 * 256`. -/
def dynamicBufferThreshold : Nat := 1024 * 256

/-- Total bytes queued:
`this.audioQueue.reduce((sum, chunk) => sum + chunk.length, 0)`. -/
def queuedBytes (q : List (List Nat)) : Nat :=
  (q.map List.length).sum

/-- The chunk-combining loop of `processAudioQueue` (lines 109-112):
`while (chunk.length < this.chunkSize && this.audioQueue.length > 0)
chunk = Buffer.concat([chunk, this.audioQueue.shift()])`.  Returns the
combined chunk and the remaining queue. -/
def dequeueLoop : List (List Nat) → List Nat → List Nat × List (List Nat)
  | [], acc => (acc, [])
  | c :: rest, acc =>
    if acc.length < chunkSize then dequeueLoop rest (acc ++ c)
    else (acc, c :: rest)

/-- `AudioOutput.cleanupSpeaker` (`src/unnamed/part_002` 231-286), run to
completion (the sequence of drain/finish/close callbacks): if a cleanup
is already in flight it only runs the callback; otherwise it ends the
device and resets `speaker`, `speakerInitialized`, `isCleaningUp` and
the queue.  `isPlaying` is cleared only on the branch where a speaker
existed, as in the source. -/
def cleanupSpeaker (s : SysState) : SysState :=
  if s.isCleaningUp then s
  else if s.speakerInit then
    { s with isPlaying := false, speakerInit := false, isCleaningUp := false,
             audioQueue := [] }
  else
    { s with speakerInit := false, isCleaningUp := false, audioQueue := [] }

/-- `AudioOutput.initializeSpeaker` (`src/unnamed/part_002` 31-75) as
seen from the pump: open the device if absent; `ok` is whether the
`Speaker` constructor succeeded. -/
def pumpInit (ok : Bool) (s : SysState) : SysState :=
  if !s.speakerInit then (if ok then { s with speakerInit := true } else s) else s

/-- The speaker-present body of `processAudioQueue`
(`src/unnamed/part_002` 86-223): pause an active capture session, mark
playing, defer while pre-buffering, otherwise slice a chunk off the
queue and issue the device write (whose completion is the separate
`writeComplete` event). -/
def pumpCore (s : SysState) : SysState × List Msg :=
  let fr := if s.recording then finishRecording s else (s, [])
  let s2 := { fr.1 with isPlaying := true }
  let total := queuedBytes s2.audioQueue
  if s2.preBuffering && decide (total < minBufferSize) && s2.isWaitingForResponse then
    -- defer and re-arm (lines 96-100)
    ({ s2 with isPlaying := false }, fr.2)
  else
    let s3 := if dynamicBufferThreshold ≤ total then
                { s2 with preBuffering := false }
              else s2
    let cr := if chunkSize ≤ total then dequeueLoop s3.audioQueue []
              else (s3.audioQueue.flatten, [])
    let s4 := { s3 with audioQueue := cr.2 }
    if cr.1.isEmpty then
      -- empty chunk: stop and possibly end the stream (lines 118-150)
      ({ s4 with isPlaying := false }, fr.2)
    else
      (s4, fr.2)

/-- The synchronous body of `AudioOutput.processAudioQueue`
(`src/unnamed/part_002` 80-225) up to issuing the device write.  `ok`
is whether `initializeSpeaker` succeeded when a speaker had to be
opened (on failure `this.speaker` stays `null` and the body is a no-op). -/
def processAudioQueue (ok : Bool) (s : SysState) : SysState × List Msg :=
  if !s.isPlaying && !s.isCleaningUp && !s.audioQueue.isEmpty then
    let s0 := pumpInit ok s
    if s0.speakerInit then pumpCore s0 else (s, [])
  else (s, [])

/-- The write-completion callback inside `playChunk`
(`src/unnamed/part_002` 155-199): clear `isPlaying`, then pump again if
the queue is non-empty; otherwise, when no response is pending, the
stream is ended (the drain/finish path is the `speakerFinish` event). -/
def writeComplete (ok : Bool) (s : SysState) : SysState × List Msg :=
  if !s.isPlaying || s.isCleaningUp then (s, [])
  else
    let s1 := { s with isPlaying := false }
    if !s1.audioQueue.isEmpty && !s1.isCleaningUp then processAudioQueue ok s1
    else (s1, [])

/-- The speaker `finish` handler after the stream was ended
(`src/unnamed/part_002` 132-146 / 176-196): when nothing is pending and
the queue is drained, clean up the speaker and, in continuous mode,
restart recording. -/
def speakerFinish (ok : Bool) (s : SysState) : SysState :=
  if !s.isWaitingForResponse && s.audioQueue.isEmpty && !s.isPlaying then
    let s1 := cleanupSpeaker s
    if s1.continuousMode && !s1.recording && !s1.isPlaying && !s1.speakerInit then
      startRecording ok s1
    else s1
  else s

/-! ## Coordinator (`src/services/audioHandler.js`) -/

/-- `AudioHandler.toggleContinuousMode` (`src/services/audioHandler.js`
49-65).  Enabling stops listening for the wake word and starts a
recording when the speaker is idle and no response is pending; disabling
re-enables wake listening and stops any active recording. -/
def toggleContinuousMode (ok : Bool) (s : SysState) : SysState :=
  if !s.continuousMode then
    let s1 := { s with continuousMode := true, isListeningForWakeWord := false }
    if !s1.isPlaying && !s1.isWaitingForResponse then startRecording ok s1 else s1
  else
    let s1 := { s with continuousMode := false, isListeningForWakeWord := true }
    if s1.recording then stopRecording s1 else s1

/-- `AudioHandler.interruptPlayback` (`src/services/audioHandler.js`
70-105), run to completion (including the `cleanupSpeaker` callback that
restarts recording).  Outside the guard it does nothing at all. -/
def interruptPlayback (ok : Bool) (s : SysState) : SysState × List Msg :=
  if s.isPlaying || s.isWaitingForResponse then
    let s1 := { s with audioQueue := [] }
    let s2 := { s1 with isWaitingForResponse := false, responseId := none,
                        currentFunctionArgs := "" }
    let msgs := if s2.wsOpen then [Msg.cancel] else []
    let s3 := if s2.recording then stopRecording s2 else s2
    let s4 := cleanupSpeaker s3
    (startRecording ok s4, msgs)
  else (s, [])

/-- The `'r'` branch of `AudioHandler.handleKeyPress`
(`src/services/audioHandler.js` 112-120). -/
def keyToggleRecord (ok : Bool) (s : SysState) : SysState :=
  if s.recording then stopRecording s
  else if !s.isWaitingForResponse && !s.isPlaying then startRecording ok s
  else s

/-- `AudioHandler.cleanup` (`src/services/audioHandler.js` 136-141 with
`AudioInput.cleanup` 229-241 and `AudioOutput.cleanup` 291-296; the
inner `cleanupSpeaker` call returns immediately because `isCleaningUp`
was just set). -/
def handlerCleanup (s : SysState) : SysState :=
  { s with isCleaningUp := true, continuousMode := false, recording := false,
           isListeningForWakeWord := true }

/-! ## Transport message dispatch (`src/chat.js`) -/

/-- `input_audio_buffer.speech_started` (`src/chat.js` 59-63). -/
def handleSpeechStarted (s : SysState) : SysState :=
  { s with isProcessingAudio := true, speechDetected := true }

/-- `input_audio_buffer.speech_stopped` (`src/chat.js` 65-70). -/
def handleSpeechStopped (s : SysState) : SysState × List Msg :=
  if s.pendingStopRecording then finishRecording s else (s, [])

/-- `response.created` (`src/chat.js` 89-93). -/
def handleResponseCreated (rid : Nat) (s : SysState) : SysState :=
  { s with isWaitingForResponse := true, responseId := some rid }

/-- `response.audio.delta` (`src/chat.js` 102-115): when a (non-empty)
`delta` payload is present, decode it, push it onto the playback queue
and pump the queue if playback is idle.  The event's `responseId` is
accepted as a parameter but — exactly as in the source — never read. -/
def handleAudioDelta (ok : Bool) (delta : Option (List Nat)) (_rid : Nat)
    (s : SysState) : SysState × List Msg :=
  match delta with
  | none => (s, [])
  | some bytes =>
    let s1 := { s with audioQueue := s.audioQueue ++ [bytes] }
    if !s1.isPlaying then processAudioQueue ok s1 else (s1, [])

/-- `response.done` (`src/chat.js` 117-123): only a matching
`response_id` clears the pending-response state. -/
def handleResponseDone (rid : Nat) (s : SysState) : SysState :=
  if s.responseId = some rid then
    { s with isWaitingForResponse := false, responseId := none }
  else s

/-- `response.function_call_arguments.delta` (`src/chat.js` 145-148). -/
def handleFuncArgsDelta (frag : String) (s : SysState) : SysState :=
  { s with currentFunctionArgs := s.currentFunctionArgs ++ frag }

/-- `conversation.item.created` with a `function_call_output` item
(`src/chat.js` 82-86). -/
def handleItemFuncOutput (s : SysState) : SysState :=
  { s with isWaitingForResponse := true, responseId := none }

/-- `conversation.done` for the current conversation (`src/chat.js`
125-131). -/
def handleConversationDone (s : SysState) : SysState :=
  { s with isProcessingAudio := false }

/-- An action scheduled with `setTimeout` by the close handler. -/
inductive Scheduled where
  /-- a call to `this.connect()` after the given delay in ms. -/
  | reconnectAttempt (delayMs : Nat)
  deriving Repr, DecidableEq

/-- The WebSocket `close` handler (`src/chat.js` 251-258): a close with
any code other than 1000 (normal closure) schedules a single
`this.connect()` call 1000 ms later; the socket reference is cleared in
every case. -/
def wsCloseHandler (code : Nat) (s : SysState) : SysState × List Scheduled :=
  let sched := if code ≠ 1000 then [Scheduled.reconnectAttempt 1000] else []
  ({ s with wsOpen := false }, sched)

/-! ## The event-driven transition system

The program is single-threaded: device callbacks, detector output,
keyboard input and transport messages are serialized, and each handler
runs to completion.  `Event` enumerates the handlers; `stepFn` runs one
(discarding the outgoing messages, which the safety invariants do not
mention); `Reachable` is the induced reachability from the initial
state. -/

/-- One serialized event delivered to the program. -/
inductive Event where
  | wakeLine (line : String) (now : Nat) (ok : Bool)
  | captureChunk (chunk : List Nat)
  | keyR (ok : Bool)
  | keyX (ok : Bool)
  | keyI (ok : Bool)
  | pump (ok : Bool)
  | writeDone (ok : Bool)
  | spkFinish (ok : Bool)
  | msgSpeechStarted
  | msgSpeechStopped
  | msgResponseCreated (rid : Nat)
  | msgAudioDelta (ok : Bool) (delta : Option (List Nat)) (rid : Nat)
  | msgResponseDone (rid : Nat)
  | msgFuncArgsDelta (frag : String)
  | msgItemFuncOutput
  | msgConversationDone
  | wsClose (code : Nat)
  | quit

/-- Run one event handler. -/
def stepFn : Event → SysState → SysState
  | .wakeLine line now ok, s => (wakeLineStep ok line now s).1
  | .captureChunk chunk, s => (onAudioChunk s chunk).1
  | .keyR ok, s => keyToggleRecord ok s
  | .keyX ok, s => toggleContinuousMode ok s
  | .keyI ok, s => (interruptPlayback ok s).1
  | .pump ok, s => (processAudioQueue ok s).1
  | .writeDone ok, s => (writeComplete ok s).1
  | .spkFinish ok, s => speakerFinish ok s
  | .msgSpeechStarted, s => handleSpeechStarted s
  | .msgSpeechStopped, s => (handleSpeechStopped s).1
  | .msgResponseCreated rid, s => handleResponseCreated rid s
  | .msgAudioDelta ok delta rid, s => (handleAudioDelta ok delta rid s).1
  | .msgResponseDone rid, s => handleResponseDone rid s
  | .msgFuncArgsDelta frag, s => handleFuncArgsDelta frag s
  | .msgItemFuncOutput, s => handleItemFuncOutput s
  | .msgConversationDone, s => handleConversationDone s
  | .wsClose code, s => (wsCloseHandler code s).1
  | .quit, s => handlerCleanup s

/-- States reachable from the initial state by any event sequence. -/
inductive Reachable : SysState → Prop
  | init : Reachable initState
  | step {s : SysState} (e : Event) : Reachable s → Reachable (stepFn e s)

/-- The spec's session modes, derived from the concrete flags: the
program has no explicit mode variable; `Recording` is an active capture
session, `Playing` an actively consuming playback session,
`AwaitingResponse` a pending remote response, and `ListeningForWake`
the quiescent state in which the wake path may start a recording. -/
inductive Mode where
  | listeningForWake
  | recording
  | awaitingResponse
  | playing
  deriving Repr, DecidableEq

/-- Derived mode of a state. -/
def modeOf (s : SysState) : Mode :=
  if s.recording then .recording
  else if s.isPlaying then .playing
  else if s.isWaitingForResponse then .awaitingResponse
  else .listeningForWake

/-- Deliver a list of capture chunks in order to the stream `data`
callback, collecting the transport messages produced. -/
def captureRun (s : SysState) : List (List Nat) → SysState × List Msg
  | [] => (s, [])
  | c :: cs =>
    let r := onAudioChunk s c
    let rest := captureRun r.1 cs
    (rest.1, r.2 ++ rest.2)

/-- The audio frames among a message list (the payloads of the
`input_audio_buffer.append` messages). -/
def framesOf (msgs : List Msg) : List (List Nat) :=
  msgs.filterMap fun m =>
    match m with
    | .appendAudio b => some b
    | _ => none

/-- A state in which playback is actively running. -/
def sPlaying : SysState :=
  { initState with isPlaying := true, speakerInit := true, isWaitingForResponse := true }

/-- A state with pending response id 1, during playback. -/
def sPending : SysState :=
  { initState with responseId := some 1, isWaitingForResponse := true, isPlaying := true }

/-- A state with an active capture session. -/
def sRecording : SysState := { initState with recording := true }

/-- A block of `n` zero bytes (kept abstract so proofs reason about
lengths instead of materializing the list). -/
def audioBytes (n : Nat) : List Nat := List.replicate n 0

/-- A 39000-byte capture feed whose chunks hit the flush threshold
exactly: 16000 + 16000 + 7000. -/
def c4Chunks : List (List Nat) :=
  [audioBytes 16000, audioBytes 16000, audioBytes 7000]

/-- The capture run over `c4Chunks`. -/
def c4Run : SysState × List Msg := captureRun sRecording c4Chunks

/-- The same 39000 bytes delivered as one single chunk. -/
def c4OneRun : SysState × List Msg :=
  captureRun sRecording [audioBytes 39000]

/-! ## Theorems -/

/-- Mutual exclusion of the capture and playback sessions. -/
def MutexInv (s : SysState) : Prop :=
  s.recording = true → s.isPlaying = false

theorem startRecording_mutex (ok : Bool) (s : SysState) (h : MutexInv s) :
    MutexInv (startRecording ok s) := by
  unfold startRecording MutexInv at *
  dsimp only
  split_ifs <;> simp_all

theorem stopRecording_mutex (s : SysState) (h : MutexInv s) :
    MutexInv (stopRecording s) := by
  unfold stopRecording MutexInv at *
  dsimp only
  split_ifs <;> simp_all

theorem finishRecording_mutex (s : SysState) (h : MutexInv s) :
    MutexInv (finishRecording s).1 := by
  unfold finishRecording MutexInv at *
  dsimp only
  split_ifs <;> simp_all

theorem onAudioChunk_mutex (s : SysState) (chunk : List Nat) (h : MutexInv s) :
    MutexInv (onAudioChunk s chunk).1 := by
  unfold onAudioChunk MutexInv at *
  dsimp only
  split_ifs <;> simp_all

theorem cleanupSpeaker_mutex (s : SysState) (h : MutexInv s) :
    MutexInv (cleanupSpeaker s) := by
  unfold cleanupSpeaker MutexInv at *
  split_ifs <;> simp_all

/-- The capture session is always finished before the playback pump
marks itself playing (`src/unnamed/part_002` 87-90). -/
theorem finishIf_recording (s : SysState) :
    ((if s.recording then finishRecording s else (s, [])).1).recording = false := by
  split_ifs with h
  · unfold finishRecording
    dsimp only
    split_ifs <;> simp_all
  · simpa using h

theorem pumpCore_recording (s : SysState) :
    (pumpCore s).1.recording = false := by
  unfold pumpCore
  have h : ((if s.recording then finishRecording s else (s, [])).1).recording = false :=
    finishIf_recording s
  generalize hfr : (if s.recording = true then finishRecording s else (s, [])) = fr at h ⊢
  dsimp only
  split_ifs <;> simpa using h

theorem processAudioQueue_cases (ok : Bool) (s : SysState) :
    (processAudioQueue ok s).1.recording = false ∨ (processAudioQueue ok s).1 = s := by
  unfold processAudioQueue
  dsimp only
  split_ifs
  · exact Or.inl (pumpCore_recording _)
  · exact Or.inr rfl
  · exact Or.inr rfl

theorem processAudioQueue_mutex (ok : Bool) (s : SysState) (h : MutexInv s) :
    MutexInv (processAudioQueue ok s).1 := by
  rcases processAudioQueue_cases ok s with hc | hc
  · intro hr; rw [hc] at hr; cases hr
  · rw [hc]; exact h

theorem writeComplete_mutex (ok : Bool) (s : SysState) (h : MutexInv s) :
    MutexInv (writeComplete ok s).1 := by
  unfold writeComplete
  dsimp only
  split_ifs with h1 h2
  · exact h
  · exact processAudioQueue_mutex ok _ (by intro _; rfl)
  · intro _; rfl

theorem speakerFinish_mutex (ok : Bool) (s : SysState) (h : MutexInv s) :
    MutexInv (speakerFinish ok s) := by
  unfold speakerFinish
  dsimp only
  split_ifs with h1 h2
  · exact startRecording_mutex ok _ (cleanupSpeaker_mutex s h)
  · exact cleanupSpeaker_mutex s h
  · exact h

theorem handleWakeWord_mutex (ok : Bool) (s : SysState) (h : MutexInv s) :
    MutexInv (handleWakeWord ok s) := by
  unfold handleWakeWord
  split_ifs
  · exact startRecording_mutex ok s h
  · exact h

theorem wakeLineStep_mutex (ok : Bool) (line : String) (now : Nat)
    (s : SysState) (h : MutexInv s) : MutexInv (wakeLineStep ok line now s).1 := by
  unfold wakeLineStep
  split_ifs
  · exact handleWakeWord_mutex ok _ h
  all_goals exact h

theorem toggleContinuousMode_mutex (ok : Bool) (s : SysState) (h : MutexInv s) :
    MutexInv (toggleContinuousMode ok s) := by
  unfold toggleContinuousMode
  dsimp only
  split_ifs with h1 h2 h3
  · exact startRecording_mutex ok _ (fun hr => h hr)
  · exact fun hr => h hr
  · exact stopRecording_mutex _ (fun hr => h hr)
  · exact fun hr => h hr

theorem interruptPlayback_mutex (ok : Bool) (s : SysState) (h : MutexInv s) :
    MutexInv (interruptPlayback ok s).1 := by
  unfold interruptPlayback
  dsimp only
  split_ifs <;> dsimp only <;>
    first
      | exact h
      | exact startRecording_mutex ok _ (cleanupSpeaker_mutex _
          (stopRecording_mutex _ (fun hr => h hr)))
      | exact startRecording_mutex ok _ (cleanupSpeaker_mutex _ (fun hr => h hr))

theorem keyToggleRecord_mutex (ok : Bool) (s : SysState) (h : MutexInv s) :
    MutexInv (keyToggleRecord ok s) := by
  unfold keyToggleRecord
  split_ifs
  · exact stopRecording_mutex s h
  · exact startRecording_mutex ok s h
  · exact h

theorem handleAudioDelta_mutex (ok : Bool) (delta : Option (List Nat))
    (rid : Nat) (s : SysState) (h : MutexInv s) :
    MutexInv (handleAudioDelta ok delta rid s).1 := by
  unfold handleAudioDelta
  cases delta with
  | none => exact h
  | some bytes =>
    dsimp only
    split_ifs with h1
    · exact processAudioQueue_mutex ok _ (fun hr => h hr)
    · exact fun hr => h hr

theorem handleSpeechStopped_mutex (s : SysState) (h : MutexInv s) :
    MutexInv (handleSpeechStopped s).1 := by
  unfold handleSpeechStopped
  split_ifs
  · exact finishRecording_mutex s h
  · exact h

/-- Every serialized event handler preserves capture/playback mutual
exclusion. -/
theorem stepFn_mutex (e : Event) (s : SysState) (h : MutexInv s) :
    MutexInv (stepFn e s) := by
  cases e with
  | wakeLine line now ok => exact wakeLineStep_mutex ok line now s h
  | captureChunk chunk => exact onAudioChunk_mutex s chunk h
  | keyR ok => exact keyToggleRecord_mutex ok s h
  | keyX ok => exact toggleContinuousMode_mutex ok s h
  | keyI ok => exact interruptPlayback_mutex ok s h
  | pump ok => exact processAudioQueue_mutex ok s h
  | writeDone ok => exact writeComplete_mutex ok s h
  | spkFinish ok => exact speakerFinish_mutex ok s h
  | msgSpeechStarted => exact h
  | msgSpeechStopped => exact handleSpeechStopped_mutex s h
  | msgResponseCreated rid => exact h
  | msgAudioDelta ok delta rid => exact handleAudioDelta_mutex ok delta rid s h
  | msgResponseDone rid =>
    dsimp only [stepFn]
    unfold handleResponseDone
    split_ifs <;> exact h
  | msgFuncArgsDelta frag => exact h
  | msgItemFuncOutput => exact h
  | msgConversationDone => exact h
  | wsClose code => exact h
  | quit =>
    dsimp only [stepFn]
    unfold handlerCleanup MutexInv
    simp

theorem reachable_mutex {s : SysState} (h : Reachable s) : MutexInv s := by
  induction h with
  | init => intro hr; cases hr
  | step e _ ih => exact stepFn_mutex e _ ih

/-- C1.  For every reachable state, an active capture session
(`recording`) excludes an active playback session (`isPlaying`), and
vice versa: the microphone and speaker sessions are never both alive. -/
theorem capture_playback_mutual_exclusion {s : SysState} (h : Reachable s) :
    (s.recording = true → s.isPlaying = false) ∧
    (s.isPlaying = true → s.recording = false) := by
  have hm := reachable_mutex h
  refine ⟨hm, ?_⟩
  intro hp
  cases hr : s.recording with
  | false => rfl
  | true => rw [hm hr] at hp; cases hp

/-- Witness for C1 at a concrete reachable state: pressing `r` in the
initial state starts a recording, and there mutual exclusion holds. -/
theorem capture_playback_mutual_exclusion_witness :
    ((stepFn (.keyR true) initState).recording = true →
      (stepFn (.keyR true) initState).isPlaying = false) ∧
    ((stepFn (.keyR true) initState).isPlaying = true →
      (stepFn (.keyR true) initState).recording = false) :=
  capture_playback_mutual_exclusion (Reachable.step _ Reachable.init)

/-- C5.  A wake detection delivered while the derived session mode is
not `ListeningForWake` (i.e. a capture session is active, playback is
active, or a response is pending) is silently dropped: the state is
left completely unchanged — no mode transition, no recording start, and
nothing is queued. -/
theorem wake_dropped_outside_listening (ok : Bool) (s : SysState)
    (h : modeOf s ≠ Mode.listeningForWake) : handleWakeWord ok s = s := by
  unfold handleWakeWord modeOf at *
  split_ifs at h ⊢ <;> simp_all

/-- Witness for C5: a wake detection arriving during playback leaves
the state untouched. -/
theorem wake_dropped_outside_listening_witness :
    modeOf { initState with isPlaying := true } ≠ Mode.listeningForWake ∧
    handleWakeWord true { initState with isPlaying := true } =
      { initState with isPlaying := true } :=
  ⟨by decide, wake_dropped_outside_listening true _ (by decide)⟩

theorem startRecording_isPlaying (ok : Bool) (s : SysState) :
    (startRecording ok s).isPlaying = s.isPlaying := by
  unfold startRecording; dsimp only; split_ifs <;> rfl

theorem startRecording_isWaiting (ok : Bool) (s : SysState) :
    (startRecording ok s).isWaitingForResponse = s.isWaitingForResponse := by
  unfold startRecording; dsimp only; split_ifs <;> rfl

theorem stopRecording_isPlaying (s : SysState) :
    (stopRecording s).isPlaying = s.isPlaying := by
  unfold stopRecording; dsimp only; split_ifs <;> rfl

theorem stopRecording_isWaiting (s : SysState) :
    (stopRecording s).isWaitingForResponse = s.isWaitingForResponse := by
  unfold stopRecording; dsimp only; split_ifs <;> rfl

theorem stopRecording_isCleaningUp (s : SysState) :
    (stopRecording s).isCleaningUp = s.isCleaningUp := by
  unfold stopRecording; dsimp only; split_ifs <;> rfl

theorem stopRecording_speakerInit (s : SysState) :
    (stopRecording s).speakerInit = s.speakerInit := by
  unfold stopRecording; dsimp only; split_ifs <;> rfl

theorem cleanupSpeaker_isWaiting (s : SysState) :
    (cleanupSpeaker s).isWaitingForResponse = s.isWaitingForResponse := by
  unfold cleanupSpeaker; split_ifs <;> rfl

theorem cleanupSpeaker_isPlaying (s : SysState) (hc : s.isCleaningUp = false)
    (hps : s.isPlaying = true → s.speakerInit = true) :
    (cleanupSpeaker s).isPlaying = false := by
  unfold cleanupSpeaker
  rw [if_neg (by simp [hc])]
  split_ifs with h
  · rfl
  · cases hp : s.isPlaying
    · rfl
    · exact absurd (hps hp) (by simpa using h)

/-- After an interrupt, the system is quiescent: not playing and not
waiting for a response, provided no device cleanup was already in
flight and an active playback implies an open speaker. -/
theorem interruptPlayback_quiescent (ok : Bool) (s : SysState)
    (hc : s.isCleaningUp = false) (hps : s.isPlaying = true → s.speakerInit = true) :
    (interruptPlayback ok s).1.isPlaying = false ∧
    (interruptPlayback ok s).1.isWaitingForResponse = false := by
  unfold interruptPlayback
  dsimp only
  by_cases h1 : (s.isPlaying || s.isWaitingForResponse) = true
  · rw [if_pos h1]
    dsimp only
    constructor
    · rw [startRecording_isPlaying]
      apply cleanupSpeaker_isPlaying
      · split_ifs with h2
        · rw [stopRecording_isCleaningUp]; exact hc
        · exact hc
      · split_ifs with h2
        · rw [stopRecording_isPlaying, stopRecording_speakerInit]; exact hps
        · exact hps
    · rw [startRecording_isWaiting, cleanupSpeaker_isWaiting]
      split_ifs with h2
      · rw [stopRecording_isWaiting]
      · rfl
  · rw [if_neg h1]
    simp only [Bool.or_eq_true, not_or, Bool.not_eq_true] at h1
    exact ⟨h1.1, h1.2⟩

/-- C9.  Issuing the interrupt command while nothing is playing and no
response is in flight is a complete no-op: the state (playback queue,
pending response, recording, flags) is unchanged and no `response.cancel`
is sent.  Moreover a second interrupt issued right after an interrupt
(i.e. "while already interrupting") is such a no-op. -/
theorem interrupt_idle_noop :
    (∀ (ok : Bool) (s : SysState), s.isPlaying = false →
        s.isWaitingForResponse = false → interruptPlayback ok s = (s, [])) ∧
    (∀ (ok ok' : Bool) (s : SysState), s.isCleaningUp = false →
        (s.isPlaying = true → s.speakerInit = true) →
        interruptPlayback ok' (interruptPlayback ok s).1 =
          ((interruptPlayback ok s).1, [])) := by
  have base : ∀ (ok : Bool) (s : SysState), s.isPlaying = false →
      s.isWaitingForResponse = false → interruptPlayback ok s = (s, []) := by
    intro ok s h1 h2
    unfold interruptPlayback
    rw [if_neg (by simp [h1, h2])]
  refine ⟨base, ?_⟩
  intro ok ok' s hc hps
  obtain ⟨hp, hw⟩ := interruptPlayback_quiescent ok s hc hps
  exact base ok' _ hp hw

/-- Witness for C9: interrupt in the initial state is a no-op, and a
second interrupt right after an interrupt during playback is a no-op. -/
theorem interrupt_idle_noop_witness :
    interruptPlayback true initState = (initState, []) ∧
    interruptPlayback false (interruptPlayback true sPlaying).1 =
      ((interruptPlayback true sPlaying).1, []) :=
  ⟨interrupt_idle_noop.1 true initState rfl rfl,
   interrupt_idle_noop.2 true false sPlaying rfl (fun _ => rfl)⟩

/-- Counterexample to C2 as stated: with pending response id `1`, an
audio-delta tagged with response id `2` is *not* discarded — the chunk
is pushed onto the playback queue (`src/chat.js` 102-115 never reads
the event's response id). -/
theorem audio_delta_not_discarded_counterexample :
    sPending.responseId = some 1 ∧
    (handleAudioDelta true (some [7]) 2 sPending).1.audioQueue = [[7]] ∧
    (handleAudioDelta true (some [7]) 2 sPending).1.audioQueue ≠
      sPending.audioQueue := by
  refine ⟨rfl, ?_, ?_⟩ <;> decide

/-- C2 amended.  Audio-delta handling is completely independent of the
event's response id (the id is never read, so stale audio is enqueued,
not discarded); response-id filtering exists only for `response.done`,
where a non-matching id leaves the state unchanged. -/
theorem audio_delta_ignores_response_id :
    (∀ (ok : Bool) (delta : Option (List Nat)) (rid rid' : Nat) (s : SysState),
        handleAudioDelta ok delta rid s = handleAudioDelta ok delta rid' s) ∧
    (∀ (rid : Nat) (s : SysState), s.responseId ≠ some rid →
        handleResponseDone rid s = s) := by
  constructor
  · intro ok delta rid rid' s; rfl
  · intro rid s h
    unfold handleResponseDone
    rw [if_neg h]

/-- Witness for C2 (amended): a delta keeps its effect under a changed
response id, and a `response.done` bearing id 5 while none is pending
changes nothing. -/
theorem audio_delta_ignores_response_id_witness :
    handleAudioDelta true (some [1]) 1 initState =
      handleAudioDelta true (some [1]) 2 initState ∧
    handleResponseDone 5 initState = initState :=
  ⟨audio_delta_ignores_response_id.1 true (some [1]) 1 2 initState,
   audio_delta_ignores_response_id.2 5 initState (by decide)⟩

/-- The cross-multiplied threshold test agrees with the rational
comparison `1/2 < value` the handler performs. -/
theorem Dec.gtHalf_iff (d : Dec) : d.gtHalf = true ↔ (1 : ℚ) / 2 < d.toRat := by
  unfold Dec.gtHalf Dec.toRat
  rw [decide_eq_true_eq]
  have h10 : (0 : ℚ) < (10 : ℚ) ^ d.k := by positivity
  rw [show (d.ip : ℚ) + (d.fr : ℚ) / (10 : ℚ) ^ d.k =
        ((d.ip * 10 ^ d.k + d.fr : ℕ) : ℚ) / (10 : ℚ) ^ d.k by
      push_cast; field_simp]
  rw [div_lt_div_iff₀ (by norm_num) h10, one_mul]
  rw [show ((d.ip * 10 ^ d.k + d.fr : ℕ) : ℚ) * 2 =
        ((2 * (d.ip * 10 ^ d.k + d.fr) : ℕ) : ℚ) by push_cast; ring]
  rw [show ((10 : ℚ)) ^ d.k = ((10 ^ d.k : ℕ) : ℚ) by push_cast; ring]
  exact Iff.symm Nat.cast_lt

/-- The emission test on a regex result agrees with `1/2 < confidence`
(a missed match counts as confidence 0). -/
theorem scoreExceeds_iff (m : Option Dec) :
    scoreExceeds m = true ↔ (1 : ℚ) / 2 < decOptToRat m := by
  cases m with
  | none =>
    unfold scoreExceeds decOptToRat
    norm_num
  | some d =>
    unfold scoreExceeds decOptToRat
    exact Dec.gtHalf_iff d

/-- C3.  On a raw detection line (one carrying the `DETECTED!` marker),
a wake event is emitted iff the parsed confidence exceeds 0.5 and more
than the 2000 ms cooldown has elapsed since the last emitted wake
event; concretely, confidence 0.4 never triggers, a 0.6 detection
500 ms after an accepted 0.9 detection is dropped, and the same 0.6
detection 2100 ms after it is accepted. -/
theorem wake_filtering :
    (∀ (ok : Bool) (line : String) (now : Nat) (s : SysState),
        hasMarker line = true →
        ((wakeLineStep ok line now s).2 = true ↔
          (1 : ℚ) / 2 < scoreOf line ∧
            detectionCooldown < now - s.lastDetectionTime)) ∧
    (∀ (ok : Bool) (now : Nat) (s : SysState),
        (wakeLineStep ok "DETECTED! Score: 0.4" now s).2 = false) ∧
    ((wakeLineStep true "DETECTED! Score: 0.9" 10000 initState).2 = true ∧
      (wakeLineStep true "DETECTED! Score: 0.9" 10000 initState).1.lastDetectionTime
        = 10000) ∧
    (wakeLineStep true "DETECTED! Score: 0.6" 10500
        (wakeLineStep true "DETECTED! Score: 0.9" 10000 initState).1).2 = false ∧
    (wakeLineStep true "DETECTED! Score: 0.6" 12100
        (wakeLineStep true "DETECTED! Score: 0.9" 10000 initState).1).2 = true := by
  refine ⟨?_, ?_, ?_, ?_, ?_⟩
  · intro ok line now s h
    unfold wakeLineStep
    rw [if_pos h]
    have hs := scoreExceeds_iff (findScore line.data)
    unfold scoreOf
    split_ifs with h1 h2 <;> simp_all
  · intro ok now s
    unfold wakeLineStep
    split_ifs with h1 h2 h3
    · exact absurd h2 (by decide)
    · rfl
    · rfl
    · rfl
  · exact ⟨by decide, by decide⟩
  · decide
  · decide

/-- Witness for C3's universally quantified part at a concrete line. -/
theorem wake_filtering_witness :
    hasMarker "DETECTED! Score: 0.6" = true ∧
    ((wakeLineStep true "DETECTED! Score: 0.6" 5000 initState).2 = true ↔
      (1 : ℚ) / 2 < scoreOf "DETECTED! Score: 0.6" ∧
        detectionCooldown < 5000 - initState.lastDetectionTime) :=
  ⟨by decide, wake_filtering.1 true "DETECTED! Score: 0.6" 5000 initState (by decide)⟩

/-- C10.  A detector line that carries the detection marker but no
parseable `Score: <digits>.<digits>` value is treated as confidence 0:
no wake event is emitted and the state — in particular the
last-detection timestamp — is unchanged. -/
theorem unparseable_score_no_emit (ok : Bool) (line : String) (now : Nat)
    (s : SysState) (hm : hasMarker line = true)
    (hp : findScore line.data = none) :
    scoreOf line = 0 ∧ wakeLineStep ok line now s = (s, false) := by
  have hz : scoreOf line = 0 := by unfold scoreOf; rw [hp]; rfl
  refine ⟨hz, ?_⟩
  unfold wakeLineStep
  rw [if_pos hm, if_neg (by rw [hp]; simp [scoreExceeds])]

/-- Witness for C10: a marker line whose score field is not numeric. -/
theorem unparseable_score_no_emit_witness :
    hasMarker "DETECTED! Score: high" = true ∧
    findScore "DETECTED! Score: high".data = none ∧
    wakeLineStep true "DETECTED! Score: high" 9999 initState = (initState, false) :=
  ⟨by decide, by decide,
   (unparseable_score_no_emit true "DETECTED! Score: high" 9999 initState
      (by decide) (by decide)).2⟩

/-- Counterexample to C6 as stated: with continuous mode on and a
recording active, toggling continuous mode stops the active recording
(`src/services/audioHandler.js` 58-64 calls `stopRecording`). -/
theorem toggle_stops_recording_counterexample :
    ({ initState with recording := true, continuousMode := true } : SysState).recording = true ∧
    (toggleContinuousMode true { initState with recording := true, continuousMode := true }).recording = false := by
  exact ⟨rfl, by decide⟩

/-- C6 amended.  While a recording is active, *enabling* continuous
mode changes only the continuous flag and the wake-listening flag — the
recording keeps running and no playback is started; *disabling* it
additionally stops the active recording (returning to wake listening);
in neither direction is playback started or the queue touched. -/
theorem toggle_continuous_while_recording :
    (∀ (ok : Bool) (s : SysState), s.recording = true → s.continuousMode = false →
        toggleContinuousMode ok s =
          { s with continuousMode := true, isListeningForWakeWord := false }) ∧
    (∀ (ok : Bool) (s : SysState), s.recording = true → s.continuousMode = true →
        (toggleContinuousMode ok s).recording = false ∧
        (toggleContinuousMode ok s).continuousMode = false ∧
        (toggleContinuousMode ok s).pendingStopRecording = true ∧
        (toggleContinuousMode ok s).isListeningForWakeWord = true ∧
        (toggleContinuousMode ok s).isPlaying = s.isPlaying ∧
        (toggleContinuousMode ok s).audioQueue = s.audioQueue) := by
  constructor
  · intro ok s hr hc
    unfold toggleContinuousMode startRecording
    dsimp only
    split_ifs <;> simp_all
  · intro ok s hr hc
    unfold toggleContinuousMode stopRecording
    dsimp only
    split_ifs <;> simp_all

/-- Witness for C6 (amended): both directions at concrete states. -/
theorem toggle_continuous_while_recording_witness :
    toggleContinuousMode true sRecording =
      { sRecording with continuousMode := true, isListeningForWakeWord := false } ∧
    (toggleContinuousMode true { initState with recording := true, continuousMode := true }).recording = false :=
  ⟨toggle_continuous_while_recording.1 true sRecording rfl rfl,
   (toggle_continuous_while_recording.2 true
      { initState with recording := true, continuousMode := true } rfl rfl).1⟩

/-- Counterexample to C7 as stated: a non-fatal close (code 1006)
schedules exactly one reconnect attempt, delayed 1000 ms — there is no
immediate retry and no second (backoff) retry (`src/chat.js` 251-258). -/
theorem reconnect_single_retry_counterexample :
    (wsCloseHandler 1006 initState).2 = [Scheduled.reconnectAttempt 1000] ∧
    (wsCloseHandler 1006 initState).2.length = 1 ∧
    Scheduled.reconnectAttempt 0 ∉ (wsCloseHandler 1006 initState).2 := by
  refine ⟨by decide, by decide, by decide⟩

/-- C7 amended.  A transport close with any code other than 1000
schedules a single reconnect attempt after a fixed 1-second delay and
clears the socket reference; a normal closure (code 1000) schedules
nothing.  (No immediate retry is made and no fatal error is surfaced
after the retry; moreover the scheduled attempt invokes `this.connect`,
a method the class does not define.) -/
theorem ws_close_reconnect_policy :
    (∀ (s : SysState) (code : Nat), code ≠ 1000 →
        wsCloseHandler code s =
          ({ s with wsOpen := false }, [Scheduled.reconnectAttempt 1000])) ∧
    (∀ s : SysState, wsCloseHandler 1000 s = ({ s with wsOpen := false }, [])) := by
  constructor
  · intro s code h
    unfold wsCloseHandler
    rw [if_pos h]
  · intro s
    unfold wsCloseHandler
    rw [if_neg (by simp)]

/-- Witness for C7 (amended) at close code 1006. -/
theorem ws_close_reconnect_policy_witness :
    wsCloseHandler 1006 initState =
      ({ initState with wsOpen := false }, [Scheduled.reconnectAttempt 1000]) ∧
    wsCloseHandler 1000 initState = ({ initState with wsOpen := false }, []) :=
  ⟨ws_close_reconnect_policy.1 initState 1006 (by decide),
   ws_close_reconnect_policy.2 initState⟩

/-- Counterexample to C8 as stated: `finishRecording` with an empty
partial buffer sends nothing at all — in particular no
`input_audio_buffer.commit` marker (`src/services/audioInput.js`
204-217 guards the commit behind `audioBuffer.length > 0`). -/
theorem finish_no_commit_on_empty_buffer :
    sRecording.recording = true ∧ sRecording.audioBuffer = [] ∧
    sRecording.wsOpen = true ∧ (finishRecording sRecording).2 = [] ∧
    Msg.commit ∉ (finishRecording sRecording).2 := by
  refine ⟨rfl, rfl, rfl, by decide, by decide⟩

/-- C8 amended.  On an active capture session, `finish()` sends the
partial buffer as a final frame followed by the end-of-utterance commit
marker only when the socket is open *and* the partial buffer is
non-empty; with an empty buffer or a closed socket nothing is sent (no
commit).  In every case the device is released: recording cleared,
buffer emptied, pending-stop and speech flags reset. -/
theorem finish_recording_behavior :
    (∀ s : SysState, s.recording = true → s.wsOpen = true → s.audioBuffer ≠ [] →
        (finishRecording s).2 = [Msg.appendAudio s.audioBuffer, Msg.commit] ∧
        (finishRecording s).1 =
          { s with recording := false, audioBuffer := [], pendingStopRecording := false, speechDetected := false }) ∧
    (∀ s : SysState, s.recording = true → (s.wsOpen = false ∨ s.audioBuffer = []) →
        (finishRecording s).2 = [] ∧
        (finishRecording s).1 =
          { s with recording := false, audioBuffer := [], pendingStopRecording := false, speechDetected := false }) := by
  constructor
  · intro s h1 h2 h3
    unfold finishRecording
    dsimp only
    rw [if_neg (by simp [h1])]
    rw [if_pos (by simp [h2, h3])]
    exact ⟨rfl, rfl⟩
  · intro s h1 h2
    unfold finishRecording
    dsimp only
    rw [if_neg (by simp [h1])]
    rcases h2 with h2 | h2 <;>
      rw [if_neg (by simp [h2])] <;> exact ⟨rfl, rfl⟩

/-- Witness for C8 (amended): a non-empty one-byte buffer is flushed
with a commit; an empty buffer produces no messages. -/
theorem finish_recording_behavior_witness :
    (finishRecording { sRecording with audioBuffer := [3] }).2 =
      [Msg.appendAudio [3], Msg.commit] ∧
    (finishRecording sRecording).2 = [] :=
  ⟨((finish_recording_behavior.1 { sRecording with audioBuffer := [3] }) rfl rfl (by decide)).1,
   ((finish_recording_behavior.2 sRecording) rfl (Or.inr rfl)).1⟩

/-- The length and emptiness facts about zero-byte blocks used below. -/
theorem audioBytes_length (n : Nat) : (audioBytes n).length = n := by
  simp [audioBytes]

theorem audioBytes_isEmpty_false (n : Nat) (h : n ≠ 0) :
    (audioBytes n).isEmpty = false := by
  cases n with
  | zero => exact absurd rfl h
  | succ m => simp [audioBytes, List.replicate_succ]

/-- Flushing case of the capture `data` callback: once the accumulated
buffer reaches the threshold, the whole buffer goes out as one frame
and the buffer is reset. -/
theorem onAudioChunk_flush (s : SysState) (chunk : List Nat)
    (hw : s.wsOpen = true)
    (h : flushThreshold ≤ s.audioBuffer.length + chunk.length) :
    onAudioChunk s chunk =
      ({ s with audioBuffer := [] }, [Msg.appendAudio (s.audioBuffer ++ chunk)]) := by
  unfold onAudioChunk
  rw [if_pos hw]
  dsimp only
  rw [if_pos (by simpa using h)]

/-- Accumulating case of the capture `data` callback: below the
threshold the chunk is only appended. -/
theorem onAudioChunk_keep (s : SysState) (chunk : List Nat)
    (hw : s.wsOpen = true)
    (h : s.audioBuffer.length + chunk.length < flushThreshold) :
    onAudioChunk s chunk =
      ({ s with audioBuffer := s.audioBuffer ++ chunk }, []) := by
  unfold onAudioChunk
  rw [if_pos hw]
  dsimp only
  rw [if_neg (by simp; omega)]

theorem onAudioChunk_sRecording_16000 :
    onAudioChunk sRecording (audioBytes 16000) =
      (sRecording, [Msg.appendAudio (audioBytes 16000)]) := by
  rw [onAudioChunk_flush sRecording (audioBytes 16000) rfl
    (by rw [show sRecording.audioBuffer = ([] : List Nat) from rfl, audioBytes_length]
        norm_num [flushThreshold])]
  rw [show sRecording.audioBuffer = ([] : List Nat) from rfl, List.nil_append]
  rfl

theorem onAudioChunk_sRecording_39000 :
    onAudioChunk sRecording (audioBytes 39000) =
      (sRecording, [Msg.appendAudio (audioBytes 39000)]) := by
  rw [onAudioChunk_flush sRecording (audioBytes 39000) rfl
    (by rw [show sRecording.audioBuffer = ([] : List Nat) from rfl, audioBytes_length]
        norm_num [flushThreshold])]
  rw [show sRecording.audioBuffer = ([] : List Nat) from rfl, List.nil_append]
  rfl

theorem onAudioChunk_sRecording_7000 :
    onAudioChunk sRecording (audioBytes 7000) =
      ({ sRecording with audioBuffer := audioBytes 7000 }, []) := by
  rw [onAudioChunk_keep sRecording (audioBytes 7000) rfl
    (by rw [show sRecording.audioBuffer = ([] : List Nat) from rfl, audioBytes_length]
        norm_num [flushThreshold])]
  rw [show sRecording.audioBuffer = ([] : List Nat) from rfl, List.nil_append]

theorem c4Run_eq :
    c4Run = ({ sRecording with audioBuffer := audioBytes 7000 },
      [Msg.appendAudio (audioBytes 16000), Msg.appendAudio (audioBytes 16000)]) := by
  simp only [c4Run, c4Chunks, captureRun, onAudioChunk_sRecording_16000,
    onAudioChunk_sRecording_7000, List.nil_append, List.append_nil,
    List.cons_append, List.singleton_append]

theorem c4OneRun_eq :
    c4OneRun = (sRecording, [Msg.appendAudio (audioBytes 39000)]) := by
  simp only [c4OneRun, captureRun, onAudioChunk_sRecording_39000,
    List.append_nil]

/-- Counterexample to C4 as stated: the same 39000 bytes of audio
delivered as one chunk produce a *single* 39000-byte frame (the flush
sends the entire accumulated buffer, not 16000-byte slices) and an
empty final flush — not two 16000-byte frames plus a 7000-byte finish
frame. -/
theorem capture_flush_claim_counterexample :
    (framesOf c4OneRun.2).map List.length = [39000] ∧
    (finishRecording c4OneRun.1).2 = [] ∧
    ¬((framesOf c4OneRun.2).map List.length = [16000, 16000] ∧
      (finishRecording c4OneRun.1).2 =
        [Msg.appendAudio (audioBytes 7000), Msg.commit]) := by
  have h1 : (framesOf c4OneRun.2).map List.length = [39000] := by
    rw [c4OneRun_eq]
    simp [framesOf, audioBytes_length]
  have h2 : (finishRecording c4OneRun.1).2 = [] := by
    rw [c4OneRun_eq]
    decide
  refine ⟨h1, h2, ?_⟩
  intro hcl
  rw [h1] at hcl
  simp at hcl

/-- C4 amended.  With flush threshold 16000 bytes, each incoming chunk
is appended to the accumulation buffer and, whenever the buffer reaches
or exceeds the threshold, the *entire* buffer is forwarded as one frame
(so a frame can exceed 16000 bytes) and the buffer is reset.  When the
39000 bytes arrive in chunks that hit the threshold exactly
(16000+16000+7000), the run produces exactly two full 16000-byte frames
and leaves 7000 bytes that `finish()` flushes as the final frame
followed by the commit marker. -/
theorem capture_flush_behavior :
    (∀ (s : SysState) (chunk : List Nat), s.wsOpen = true →
        (flushThreshold ≤ s.audioBuffer.length + chunk.length →
          onAudioChunk s chunk =
            ({ s with audioBuffer := [] }, [Msg.appendAudio (s.audioBuffer ++ chunk)])) ∧
        (s.audioBuffer.length + chunk.length < flushThreshold →
          onAudioChunk s chunk =
            ({ s with audioBuffer := s.audioBuffer ++ chunk }, []))) ∧
    ((framesOf c4Run.2).map List.length = [16000, 16000] ∧
      c4Run.1.audioBuffer = audioBytes 7000 ∧
      (finishRecording c4Run.1).2 =
        [Msg.appendAudio (audioBytes 7000), Msg.commit]) := by
  refine ⟨fun s chunk hw => ⟨onAudioChunk_flush s chunk hw, onAudioChunk_keep s chunk hw⟩, ?_, ?_, ?_⟩
  · rw [c4Run_eq]
    simp [framesOf, audioBytes_length]
  · rw [c4Run_eq]
  · rw [c4Run_eq]
    unfold finishRecording
    dsimp only
    rw [if_neg (by simp [sRecording, initState])]
    rw [if_pos (by simp [sRecording, initState, audioBytes_isEmpty_false])]

/-- Witness for C4 (amended): the flush rule at a concrete
threshold-reaching chunk and at a small chunk. -/
theorem capture_flush_behavior_witness :
    onAudioChunk initState (audioBytes 16000) =
      ({ initState with audioBuffer := [] },
        [Msg.appendAudio (initState.audioBuffer ++ audioBytes 16000)]) ∧
    onAudioChunk initState [5] =
      ({ initState with audioBuffer := initState.audioBuffer ++ [5] }, []) :=
  ⟨(capture_flush_behavior.1 initState (audioBytes 16000) rfl).1
      (by rw [show initState.audioBuffer = ([] : List Nat) from rfl, audioBytes_length]
          norm_num [flushThreshold]),
   (capture_flush_behavior.1 initState [5] rfl).2
      (by rw [show initState.audioBuffer = ([] : List Nat) from rfl]
          norm_num [flushThreshold])⟩

end Forpila
